import Mathlib

/-!
Verification development for the guestpass-bot registration lifecycle and
auto-renewal scheduler.

The embedding models the Python sources shallowly:

* `Registration` mirrors the dataclass in `src/models/registration.py`;
  timestamps are integers (seconds since the epoch, UTC), `datetime` columns
  that are nullable become `Option Int`.
* The registration store (the `registrations` table) is a `List Registration`;
  the repository methods of `src/repositories/registration_repository.py`
  become functions over that list, with the SQL `UPDATE ... WHERE id = ?`
  acting on every row whose `id` matches and `SELECT ... first()` returning
  the first matching row.
* Service-layer functions from `src/services/registration_service.py` compose
  the repository operations; a raised Python exception becomes the `.error`
  branch of an `Except String` result, paired with the store state left behind
  by the call.
* The two scheduler sweeps of `src/scheduler/tasks.py` are pure functions of
  the store plus a `SweepEnv` describing the behaviour of the external
  boundaries during that sweep: whether the initial store fetch raises, what
  the submission client does per registration, whether persisting a submission
  raises inside the database layer, and whether a direct message is delivered.
  Notifications produced by `src/scheduler/notifier.py` are recorded as
  `Notification` values.
-/

/-- Mirrors the `Registration` dataclass of `src/models/registration.py`.
`id` is the primary-key column (always populated for stored rows);
`last_submitted_at` and `expires_at` are the nullable lifecycle timestamps. -/
structure Registration where
  id : Nat
  discord_user_id : String
  first_name : String
  last_name : String
  license_plate : String
  license_plate_state : String
  car_year : String
  car_make : String
  car_model : String
  car_color : String
  resident_visiting : String
  apartment_visiting : String
  phone_number : Option String
  email : Option String
  created_at : Int
  last_submitted_at : Option Int
  expires_at : Option Int
  submission_count : Nat
  auto_reregister : Bool
  is_active : Bool
 deriving Repr, DecidableEq

/-- The registration store: the rows of the `registrations` table. -/
abbrev Store : Type := List Registration

/-- `RegistrationRepository.get_by_id`: `SELECT ... WHERE id = ?`, first row. -/
def get_by_id (store : Store) (registration_id : Nat) : Option Registration :=
  List.find? (fun r => r.id = registration_id) store

/-- `RegistrationRepository.update_submission`: `UPDATE registrations SET
last_submitted_at = ?, expires_at = ?, submission_count = submission_count + 1
WHERE id = ?`. Acts on every row whose id matches (a no-op when none does). -/
def update_submission (store : Store) (registration_id : Nat)
    (last_submitted_at : Int) (expires_at : Int) : Store :=
  List.map (fun r =>
    if r.id = registration_id then
      { r with
          last_submitted_at := some last_submitted_at
          expires_at := some expires_at
          submission_count := r.submission_count + 1 }
    else r) store

/-- `RegistrationRepository.get_expiring_soon`: rows with `expires_at` non-null,
`expires_at > now`, and `epoch(expires_at) <= now + hours_before * 3600`. -/
def get_expiring_soon (store : Store) (now : Int) (hours_before : Int) : Store :=
  List.filter (fun r =>
    match r.expires_at with
    | some e => decide (now < e) && decide (e ≤ now + hours_before * 3600)
    | none => false) store

/-- `RegistrationRepository.get_active_with_auto_reregister`: rows with
`is_active` and `auto_reregister` both true. -/
def get_active_with_auto_reregister (store : Store) : Store :=
  List.filter (fun r => r.is_active && r.auto_reregister) store

/-- `RegistrationService.record_submission` at current time `now`:
computes `expires_at = now + 24 hours`, runs `update_submission`, then
re-reads the row; raises `ValueError(f"Registration {id} not found")` when the
re-read returns no row.  The returned store is the state the call leaves
behind (the repository commits the `UPDATE` before the re-read). -/
def record_submission (store : Store) (registration_id : Nat) (now : Int) :
    Store × Except String Registration :=
  let expires_at := now + 24 * 3600
  let store' := update_submission store registration_id now expires_at
  match get_by_id store' registration_id with
  | some reg => (store', Except.ok reg)
  | none =>
      (store', Except.error ("Registration " ++ toString registration_id ++ " not found"))

/-- `RegistrationService.get_registrations_for_auto_reregister`: fetches the
active auto-reregister rows, then keeps those with `reg.expires_at` non-null
and `reg.expires_at <= now + hours_before_expiry` (the list-comprehension
filter in the source). -/
def get_registrations_for_auto_reregister (store : Store) (now : Int)
    (hours_before_expiry : Int) : Store :=
  let active_auto := get_active_with_auto_reregister store
  let threshold := now + hours_before_expiry * 3600
  List.filter (fun r =>
    match r.expires_at with
    | some e => decide (e ≤ threshold)
    | none => false) active_auto

/-- `Registration.is_expired` (property, `src/models/registration.py` lines
89-94).  When `expires_at` is null the source returns `True`.  Otherwise the
source evaluates `datetime.now(datetime.timezone.utc) >= self.expires_at`;
here `datetime` is the *class* `datetime.datetime` (imported via
`from datetime import datetime`), which has no attribute `timezone`, so the
attribute lookup raises `AttributeError` before any comparison happens.  The
embedding returns that exception as the error branch. -/
def is_expired (r : Registration) (_now : Int) : Except String Bool :=
  if r.expires_at = none then Except.ok true
  else Except.error "AttributeError: type object datetime has no attribute timezone"

/-- A concrete registration used by the closed witness statements below. -/
def sampleReg : Registration :=
  { id := 1
    discord_user_id := "u1"
    first_name := "Ann"
    last_name := "Lee"
    license_plate := "ABC123"
    license_plate_state := "TX"
    car_year := "2020"
    car_make := "Kia"
    car_model := "Rio"
    car_color := "red"
    resident_visiting := "Bob"
    apartment_visiting := "215"
    phone_number := none
    email := none
    created_at := 0
    last_submitted_at := none
    expires_at := none
    submission_count := 0
    auto_reregister := false
    is_active := false }

example : is_expired sampleReg 0 = Except.ok true := rfl

/-- Behaviour of `ParkingRegistrationIntegration.submit_registration` at its
call site in the auto-renewal sweep: either it returns a `(success, message)`
pair, or evaluating the call raises an exception carrying message `msg`
(caught by the per-candidate handler in `tasks.py`). -/
inductive SubmitResult where
  | returns (success : Bool) (message : String)
  | raises (msg : String)
 deriving Repr, DecidableEq

/-- A Discord notification produced by `src/scheduler/notifier.py`, recording
the embed kind, the addressee, the registration it concerns, the
kind-specific fields, and whether `send_dm` reported delivery. -/
inductive Notification where
  | expiringSoon (userId : String) (regId : Nat) (expiresAt : Option Int)
      (delivered : Bool)
  | autoSuccess (userId : String) (regId : Nat) (newExpiry : Option Int)
      (submissionCount : Nat) (delivered : Bool)
  | autoFailed (userId : String) (regId : Nat) (error : String)
      (action : String) (delivered : Bool)
  | expired (userId : String) (regId : Nat) (delivered : Bool)
 deriving Repr, DecidableEq

/-- True exactly for the hard-expired notice built by
`DiscordNotifier.notify_expired`. -/
def Notification.isExpiredNotice : Notification → Bool
  | .expired _ _ _ => true
  | _ => false

/-- Behaviour of the external boundaries during one sweep run:
`fetchFails` — the initial store query raises (store unavailable);
`submit` — what `submit_registration` does for each registration;
`persistFails` — when `some msg`, the database layer raises an exception with
message `msg` inside `record_submission`'s `UPDATE` (the transaction rolls
back, so the store is unchanged); `dm` — whether `send_dm` delivers to a
given Discord user id (`send_dm` catches every exception and returns a
boolean, so it never raises into the sweep). -/
structure SweepEnv where
  fetchFails : Bool
  submit : Registration → SubmitResult
  persistFails : Registration → Option String
  dm : String → Bool

/-- `DiscordNotifier.notify_expiring_soon`: warning embed sent to the owner. -/
def notify_expiring_soon (env : SweepEnv) (r : Registration) : Notification :=
  Notification.expiringSoon r.discord_user_id r.id r.expires_at
    (env.dm r.discord_user_id)

/-- `DiscordNotifier.notify_auto_reregister_success`: success embed carrying
the new expiry and the cumulative submission count. -/
def notify_auto_reregister_success (env : SweepEnv) (r : Registration) :
    Notification :=
  Notification.autoSuccess r.discord_user_id r.id r.expires_at
    r.submission_count (env.dm r.discord_user_id)

/-- `DiscordNotifier.notify_auto_reregister_failed`: failure embed carrying
the error text and the manual-resubmit instruction
`Please manually resubmit using /resubmit {id}`. -/
def notify_auto_reregister_failed (env : SweepEnv) (r : Registration)
    (error : String) : Notification :=
  Notification.autoFailed r.discord_user_id r.id error
    ("Please manually resubmit using /resubmit " ++ toString r.id)
    (env.dm r.discord_user_id)

/-- `DiscordNotifier.notify_expired`: the hard-expired notice.  Defined to
mirror the notifier module; the scheduler tasks never call it. -/
def notify_expired (env : SweepEnv) (r : Registration) : Notification :=
  Notification.expired r.discord_user_id r.id (env.dm r.discord_user_id)

/-- `record_submission` as invoked from the sweep: the database layer may
itself raise (modelled by `env.persistFails`), in which case the `UPDATE`
rolls back and the exception propagates to the per-candidate handler;
otherwise the call behaves as `record_submission`. -/
def attempt_record (env : SweepEnv) (store : Store) (r : Registration)
    (now : Int) : Store × Except String Registration :=
  match env.persistFails r with
  | some msg => (store, Except.error msg)
  | none => record_submission store r.id now

/-- One iteration of the `for registration in registrations` loop of
`SchedulerTasks.auto_reregister_active`: submit to the portal; on success
persist and send the success notification; on reported failure send the
failure notification with the diagnostic message; any exception (from the
submission call or from persistence) is caught by the per-candidate
`except` and converted into a failure notification with message
`System error: {e}`.  Every branch sends exactly one notification and the
loop then proceeds.

The `SubmitResult.returns` branches follow the submission client's declared
`tuple[bool, str]` contract at this call site.  In the source as written they
are unreachable: `tasks.py` calls the async `submit_registration` without
`await` (its other call sites do await it), so the tuple-unpack of the
coroutine raises `TypeError` and execution always takes the
`SubmitResult.raises` path — see `unawaitedEnv` and the C4 analysis below. -/
def process_candidate (env : SweepEnv) (store : Store) (r : Registration)
    (now : Int) : Store × Notification :=
  match env.submit r with
  | SubmitResult.raises m =>
      (store, notify_auto_reregister_failed env r ("System error: " ++ m))
  | SubmitResult.returns false m =>
      (store, notify_auto_reregister_failed env r m)
  | SubmitResult.returns true _ =>
      match attempt_record env store r now with
      | (store', Except.ok updated) =>
          (store', notify_auto_reregister_success env updated)
      | (store', Except.error e) =>
          (store', notify_auto_reregister_failed env r ("System error: " ++ e))

/-- The candidate loop of `auto_reregister_active`, threading the store and
collecting the notification sent for each candidate in order. -/
def auto_loop (env : SweepEnv) (now : Int) :
    Store → List Registration → Store × List Notification
  | store, [] => (store, [])
  | store, r :: rest =>
      let s := process_candidate env store r now
      let t := auto_loop env now s.1 rest
      (t.1, s.2 :: t.2)

/-- `SchedulerTasks.auto_reregister_active`: fetch the candidates via
`get_registrations_for_auto_reregister` (the fetch may raise, caught by the
task-level `except`, in which case the run ends with nothing processed), then
run the candidate loop.  Returns the final store and the notifications sent. -/
def auto_reregister_active (env : SweepEnv) (store : Store) (now : Int)
    (hours : Int) : Store × List Notification :=
  if env.fetchFails then (store, [])
  else auto_loop env now store (get_registrations_for_auto_reregister store now hours)

/-- The loop of `SchedulerTasks.check_expiring_registrations`: skip
registrations with `auto_reregister and is_active` (handled by the renewal
sweep), otherwise send the expiring-soon warning; the delivery result is only
logged. -/
def expiring_loop (env : SweepEnv) : List Registration → List Notification
  | [] => []
  | r :: rest =>
      if r.auto_reregister && r.is_active then expiring_loop env rest
      else notify_expiring_soon env r :: expiring_loop env rest

/-- `SchedulerTasks.check_expiring_registrations`: fetch the expiring-soon
rows (the fetch may raise, caught by the task-level `except`), then run the
notification loop.  The task performs no store write, so the store component
of the result is the input store. -/
def check_expiring_registrations (env : SweepEnv) (store : Store) (now : Int)
    (hours : Int) : Store × List Notification :=
  if env.fetchFails then (store, [])
  else (store, expiring_loop env (get_expiring_soon store now hours))

/-- An eligible auto-renewal candidate: active, auto-reregister on, expiring
within two hours of `now = 0`. -/
def activeReg : Registration :=
  { sampleReg with
      auto_reregister := true
      is_active := true
      expires_at := some 3600
      last_submitted_at := some (3600 - 24 * 3600)
      submission_count := 1 }

/-- Sweep environment in which every external call succeeds. -/
def happyEnv : SweepEnv :=
  { fetchFails := false
    submit := fun _ => SubmitResult.returns true "Registration submitted successfully"
    persistFails := fun _ => none
    dm := fun _ => true }

/-- Sweep environment in which every submission-client call raises. -/
def raisingEnv : SweepEnv :=
  { fetchFails := false
    submit := fun _ => SubmitResult.raises "boom"
    persistFails := fun _ => none
    dm := fun _ => true }

/-- A registration expiring soon whose owner should be warned: not under
auto-renewal, expiring within two hours of `now = 0`. -/
def notifyReg : Registration :=
  { sampleReg with
      auto_reregister := false
      is_active := true
      expires_at := some 3600
      last_submitted_at := some (3600 - 24 * 3600)
      submission_count := 1 }

/-- Sweep environment in which the initial store fetch raises. -/
def fetchFailEnv : SweepEnv :=
  { fetchFails := true
    submit := fun _ => SubmitResult.returns true "unreachable"
    persistFails := fun _ => none
    dm := fun _ => true }

/-- Sweep environment reflecting the submission call site exactly as the
source executes it: `tasks.py` writes
`success, message = self.integration.submit_registration(registration)`
without `await`, while `submit_registration` is an `async def`, so the call
yields a coroutine object and the tuple-unpack raises
`TypeError: cannot unpack non-iterable coroutine object` for every candidate,
whatever the client would have reported once awaited. -/
def unawaitedEnv : SweepEnv :=
  { fetchFails := false
    submit := fun _ => SubmitResult.raises "cannot unpack non-iterable coroutine object"
    persistFails := fun _ => none
    dm := fun _ => true }

theorem find?_map_comm {α : Type} (f : α → α) (p : α → Bool)
    (h1 : ∀ x, p (f x) = p x) :
    ∀ l : List α, (l.map f).find? p = (l.find? p).map f := by
  intro l
  induction l with
  | nil => rfl
  | cons a l ih =>
      by_cases hp : p a = true
      · rw [List.map_cons, List.find?_cons_of_pos _ (by rw [h1]; exact hp),
          List.find?_cons_of_pos _ hp]
        rfl
      · rw [List.map_cons,
          List.find?_cons_of_neg _ (by rw [h1]; simpa using hp),
          List.find?_cons_of_neg _ (by simpa using hp), ih]

theorem update_submission_preserves_id (registration_id : Nat)
    (last_submitted_at expires_at : Int) (r : Registration) :
    ((if r.id = registration_id then
        { r with
            last_submitted_at := some last_submitted_at
            expires_at := some expires_at
            submission_count := r.submission_count + 1 }
      else r) : Registration).id = r.id := by
  by_cases h : r.id = registration_id <;> simp [h]

theorem get_by_id_update_submission (store : Store) (registration_id : Nat)
    (last_submitted_at expires_at : Int) (j : Nat) :
    get_by_id (update_submission store registration_id last_submitted_at expires_at) j =
      (get_by_id store j).map (fun r =>
        if r.id = registration_id then
          { r with
              last_submitted_at := some last_submitted_at
              expires_at := some expires_at
              submission_count := r.submission_count + 1 }
        else r) := by
  unfold get_by_id update_submission
  exact find?_map_comm _ _
    (fun x => by rw [update_submission_preserves_id]) store

theorem get_by_id_update_submission_ne (store : Store) (registration_id : Nat)
    (last_submitted_at expires_at : Int) (j : Nat) (hne : j ≠ registration_id) :
    get_by_id (update_submission store registration_id last_submitted_at expires_at) j =
      get_by_id store j := by
  rw [get_by_id_update_submission]
  cases hfind : get_by_id store j with
  | none => rfl
  | some r =>
      unfold get_by_id at hfind
      have hp := List.find?_some hfind
      have hid : r.id = j := of_decide_eq_true hp
      have hne' : r.id ≠ registration_id := by rw [hid]; exact hne
      simp [hne']

theorem update_submission_absent (store : Store) (registration_id : Nat)
    (last_submitted_at expires_at : Int)
    (h : ∀ r ∈ store, r.id ≠ registration_id) :
    update_submission store registration_id last_submitted_at expires_at = store := by
  unfold update_submission
  rw [List.map_congr_left (fun r hr => by rw [if_neg (h r hr)])]
  simp

theorem auto_loop_length (env : SweepEnv) (now : Int) (cands : List Registration) :
    ∀ store : Store, (auto_loop env now store cands).2.length = cands.length := by
  induction cands with
  | nil => intro store; rfl
  | cons r rest ih =>
      intro store
      simp only [auto_loop, List.length_cons]
      rw [ih]

theorem auto_loop_mem (env : SweepEnv) (now : Int) (cands : List Registration)
    (r : Registration) (n : Notification) (hmem : r ∈ cands)
    (h : ∀ store0 : Store, (process_candidate env store0 r now).2 = n) :
    ∀ store : Store, n ∈ (auto_loop env now store cands).2 := by
  induction cands with
  | nil => cases hmem
  | cons a rest ih =>
      intro store
      simp only [auto_loop, List.mem_cons]
      rcases List.mem_cons.mp hmem with heq | htail
      · exact Or.inl (by rw [← heq, h])
      · exact Or.inr (ih htail _)

theorem record_submission_fst (store : Store) (registration_id : Nat) (now : Int) :
    (record_submission store registration_id now).1 =
      update_submission store registration_id now (now + 24 * 3600) := by
  cases h : get_by_id (update_submission store registration_id now (now + 24 * 3600))
      registration_id with
  | some reg => simp only [record_submission, h]
  | none => simp only [record_submission, h]

theorem process_candidate_store_change (env : SweepEnv) (store : Store)
    (r : Registration) (now : Int) (j : Nat)
    (hchange : get_by_id (process_candidate env store r now).1 j ≠ get_by_id store j) :
    r.id = j ∧ ∃ m, env.submit r = SubmitResult.returns true m := by
  cases hsub : env.submit r with
  | raises m =>
      simp only [process_candidate, hsub] at hchange
      exact absurd rfl hchange
  | returns success m =>
      cases success with
      | false =>
          simp only [process_candidate, hsub] at hchange
          exact absurd rfl hchange
      | true =>
          refine ⟨?_, m, rfl⟩
          simp only [process_candidate, hsub] at hchange
          cases hper : env.persistFails r with
          | some msg =>
              simp only [attempt_record, hper] at hchange
              exact absurd rfl hchange
          | none =>
              simp only [attempt_record, hper] at hchange
              by_contra hne
              cases hrec : record_submission store r.id now with
              | mk store' res =>
                  have hst : store' = update_submission store r.id now (now + 24 * 3600) := by
                    have := record_submission_fst store r.id now
                    rw [hrec] at this
                    exact this
                  rw [hrec] at hchange
                  cases res with
                  | ok reg =>
                      apply hchange
                      show get_by_id store' j = get_by_id store j
                      rw [hst]
                      exact get_by_id_update_submission_ne store r.id now
                        (now + 24 * 3600) j (fun hj => hne hj.symm)
                  | error e =>
                      apply hchange
                      show get_by_id store' j = get_by_id store j
                      rw [hst]
                      exact get_by_id_update_submission_ne store r.id now
                        (now + 24 * 3600) j (fun hj => hne hj.symm)

theorem auto_loop_store_change (env : SweepEnv) (now : Int)
    (cands : List Registration) (j : Nat) :
    ∀ store : Store,
      get_by_id (auto_loop env now store cands).1 j ≠ get_by_id store j →
      ∃ r ∈ cands, r.id = j ∧ ∃ m, env.submit r = SubmitResult.returns true m := by
  induction cands with
  | nil => intro store h; exact absurd rfl h
  | cons a rest ih =>
      intro store hchange
      simp only [auto_loop] at hchange
      by_cases hstep :
          get_by_id (process_candidate env store a now).1 j = get_by_id store j
      · have htail : get_by_id
            (auto_loop env now (process_candidate env store a now).1 rest).1 j ≠
            get_by_id (process_candidate env store a now).1 j := by
          rw [hstep]; exact hchange
        obtain ⟨r, hr, hrest⟩ := ih _ htail
        exact ⟨r, List.mem_cons_of_mem a hr, hrest⟩
      · obtain ⟨hid, hm⟩ := process_candidate_store_change env store a now j hstep
        exact ⟨a, List.mem_cons_self a rest, hid, hm⟩

theorem mem_auto_candidates (store : Store) (now hours : Int) (r : Registration) :
    r ∈ get_registrations_for_auto_reregister store now hours ↔
      r ∈ store ∧ r.is_active = true ∧ r.auto_reregister = true ∧
        ∃ e, r.expires_at = some e ∧ e ≤ now + hours * 3600 := by
  unfold get_registrations_for_auto_reregister get_active_with_auto_reregister
  simp only [List.mem_filter, Bool.and_eq_true]
  constructor
  · rintro ⟨⟨hmem, hact, hauto⟩, hexp⟩
    refine ⟨hmem, hact, hauto, ?_⟩
    cases he : r.expires_at with
    | none => rw [he] at hexp; cases hexp
    | some e =>
        rw [he] at hexp
        exact ⟨e, rfl, by simpa using hexp⟩
  · rintro ⟨hmem, hact, hauto, e, he, hle⟩
    refine ⟨⟨hmem, hact, hauto⟩, ?_⟩
    rw [he]
    simpa using hle

theorem expiring_loop_eq (env : SweepEnv) :
    ∀ l : List Registration,
      expiring_loop env l =
        (l.filter (fun r => !(r.auto_reregister && r.is_active))).map
          (notify_expiring_soon env) := by
  intro l
  induction l with
  | nil => rfl
  | cons a rest ih =>
      by_cases h : (a.auto_reregister && a.is_active) = true
      · rw [expiring_loop, if_pos h, ih, List.filter_cons]
        simp [h]
      · rw [expiring_loop, if_neg h, ih, List.filter_cons]
        simp [h]

theorem expiring_loop_no_expired (env : SweepEnv) :
    ∀ l : List Registration, ∀ n ∈ expiring_loop env l, n.isExpiredNotice = false := by
  intro l
  induction l with
  | nil => intro n hn; cases hn
  | cons a rest ih =>
      intro n hn
      by_cases h : (a.auto_reregister && a.is_active) = true
      · rw [expiring_loop, if_pos h] at hn
        exact ih n hn
      · rw [expiring_loop, if_neg h] at hn
        rcases List.mem_cons.mp hn with heq | htail
        · rw [heq]; rfl
        · exact ih n htail

theorem process_candidate_no_expired (env : SweepEnv) (store : Store)
    (r : Registration) (now : Int) :
    (process_candidate env store r now).2.isExpiredNotice = false := by
  unfold process_candidate
  cases env.submit r with
  | raises m => rfl
  | returns success m =>
      cases success with
      | false => rfl
      | true =>
          cases h : attempt_record env store r now with
          | mk store' res =>
              cases res with
              | ok updated => rfl
              | error e => rfl

theorem auto_loop_no_expired (env : SweepEnv) (now : Int) (cands : List Registration) :
    ∀ store : Store, ∀ n ∈ (auto_loop env now store cands).2,
      n.isExpiredNotice = false := by
  induction cands with
  | nil => intro store n hn; cases hn
  | cons a rest ih =>
      intro store n hn
      simp only [auto_loop, List.mem_cons] at hn
      rcases hn with heq | htail
      · rw [heq]; exact process_candidate_no_expired env store a now
      · exact ih _ n htail

theorem get_by_id_some_id (store : Store) (j : Nat) (r : Registration)
    (h : get_by_id store j = some r) : r.id = j := by
  unfold get_by_id at h
  have hp := List.find?_some h
  exact of_decide_eq_true hp

/-- Claim C1: for every registration id present in the store,
`record_submission(id)` invoked at time `now` sets `last_submitted_at = now`,
sets `expires_at` to exactly `last_submitted_at + 24` hours, and increases
`submission_count` by exactly 1, leaving it otherwise never decreased. -/
theorem C1_record_submission_updates (store : Store) (registration_id : Nat)
    (now : Int) (r : Registration)
    (h : get_by_id store registration_id = some r) :
    get_by_id (record_submission store registration_id now).1 registration_id =
      some { r with
          last_submitted_at := some now
          expires_at := some (now + 24 * 3600)
          submission_count := r.submission_count + 1 } ∧
    (record_submission store registration_id now).2 =
      Except.ok { r with
          last_submitted_at := some now
          expires_at := some (now + 24 * 3600)
          submission_count := r.submission_count + 1 } ∧
    ∀ s ∈ (record_submission store registration_id now).1,
      ∃ s0 ∈ store, s0.id = s.id ∧ s0.submission_count ≤ s.submission_count := by
  have hid : r.id = registration_id := get_by_id_some_id store registration_id r h
  have hupd : get_by_id
      (update_submission store registration_id now (now + 24 * 3600)) registration_id =
      some { r with
          last_submitted_at := some now
          expires_at := some (now + 24 * 3600)
          submission_count := r.submission_count + 1 } := by
    rw [get_by_id_update_submission, h]
    simp [hid]
  refine ⟨?_, ?_, ?_⟩
  · rw [record_submission_fst]
    exact hupd
  · simp only [record_submission, hupd]
  · intro s hs
    rw [record_submission_fst] at hs
    unfold update_submission at hs
    obtain ⟨s0, hs0, rfl⟩ := List.mem_map.mp hs
    by_cases h0 : s0.id = registration_id <;>
      exact ⟨s0, hs0, by simp [h0], by simp [h0]⟩

/-- Closed instance of C1 on a one-row store. -/
theorem C1_witness :
    get_by_id [sampleReg] 1 = some sampleReg ∧
    (get_by_id (record_submission [sampleReg] 1 0).1 1 =
        some { sampleReg with
            last_submitted_at := some 0
            expires_at := some (0 + 24 * 3600)
            submission_count := sampleReg.submission_count + 1 } ∧
      (record_submission [sampleReg] 1 0).2 =
        Except.ok { sampleReg with
            last_submitted_at := some 0
            expires_at := some (0 + 24 * 3600)
            submission_count := sampleReg.submission_count + 1 } ∧
      ∀ s ∈ (record_submission [sampleReg] 1 0).1,
        ∃ s0 ∈ [sampleReg], s0.id = s.id ∧ s0.submission_count ≤ s.submission_count) :=
  ⟨rfl, C1_record_submission_updates [sampleReg] 1 0 sampleReg rfl⟩

/-- Claim C8: for every id absent from the store, `record_submission(id)`
fails with a not-found error and the store is left entirely unchanged by the
failed call. -/
theorem C8_record_submission_not_found (store : Store) (registration_id : Nat)
    (now : Int) (h : get_by_id store registration_id = none) :
    record_submission store registration_id now =
      (store, Except.error ("Registration " ++ toString registration_id ++ " not found")) := by
  have habs : ∀ r ∈ store, r.id ≠ registration_id := by
    intro r hr
    unfold get_by_id at h
    have hnp := List.find?_eq_none.mp h r hr
    simpa using hnp
  have hupd := update_submission_absent store registration_id now (now + 24 * 3600) habs
  simp only [record_submission, hupd, h]

/-- Closed instance of C8: id 2 is absent from a store holding only id 1. -/
theorem C8_witness :
    get_by_id [sampleReg] 2 = none ∧
    record_submission [sampleReg] 2 0 =
      ([sampleReg], Except.error ("Registration " ++ toString 2 ++ " not found")) :=
  ⟨rfl, C8_record_submission_not_found [sampleReg] 2 0 rfl⟩

/-- Claim C3: the auto-renewal candidate set computed at time `now` with
window `hours` contains exactly the registrations with `is_active`,
`auto_reregister`, a non-null `expires_at`, and
`expires_at ≤ now + hours` hours; every inactive registration and every
registration with null `expires_at` is excluded. -/
theorem C3_candidate_set (store : Store) (now hours : Int) (r : Registration) :
    r ∈ get_registrations_for_auto_reregister store now hours ↔
      r ∈ store ∧ r.is_active = true ∧ r.auto_reregister = true ∧
        ∃ e, r.expires_at = some e ∧ e ≤ now + hours * 3600 :=
  mem_auto_candidates store now hours r

/-- Claim C7 (divergence witness): evaluating `is_expired` on a registration
with a non-null `expires_at` raises `AttributeError` instead of comparing the
current time with `expires_at` (the claimed result at `now = 200`,
`expires_at = 100` would be `true`); with `expires_at` null it does return
`true` without error. -/
theorem C7_is_expired_raises_on_submitted :
    is_expired { sampleReg with expires_at := some 100 } 200 =
      Except.error "AttributeError: type object datetime has no attribute timezone" ∧
    is_expired sampleReg 200 = Except.ok true :=
  ⟨rfl, rfl⟩

theorem auto_sweep_unfold (env : SweepEnv) (store : Store) (now hours : Int)
    (hfetch : env.fetchFails = false) :
    auto_reregister_active env store now hours =
      auto_loop env now store (get_registrations_for_auto_reregister store now hours) := by
  simp [auto_reregister_active, hfetch]

/-- Claim C2: in one auto-renewal sweep, an exception raised while processing
a candidate is caught at the per-candidate boundary and converted into a
failure notification for that candidate with the generic
`System error: {e}` message, and every candidate of the sweep is still
processed (one notification per fetched candidate); the sweep never
terminates early because of one candidate's error. -/
theorem C2_per_candidate_isolation (env : SweepEnv) (store : Store)
    (now hours : Int) (hfetch : env.fetchFails = false) :
    (auto_reregister_active env store now hours).2.length =
      (get_registrations_for_auto_reregister store now hours).length ∧
    (∀ r ∈ get_registrations_for_auto_reregister store now hours, ∀ m,
      env.submit r = SubmitResult.raises m →
      notify_auto_reregister_failed env r ("System error: " ++ m) ∈
        (auto_reregister_active env store now hours).2) ∧
    (∀ r ∈ get_registrations_for_auto_reregister store now hours, ∀ m msg,
      env.submit r = SubmitResult.returns true m →
      env.persistFails r = some msg →
      notify_auto_reregister_failed env r ("System error: " ++ msg) ∈
        (auto_reregister_active env store now hours).2) := by
  rw [auto_sweep_unfold env store now hours hfetch]
  refine ⟨auto_loop_length env now _ store, ?_, ?_⟩
  · intro r hmem m hraise
    exact auto_loop_mem env now _ r _ hmem
      (fun store0 => by simp only [process_candidate, hraise]) store
  · intro r hmem m msg hsub hper
    exact auto_loop_mem env now _ r _ hmem
      (fun store0 => by simp only [process_candidate, hsub, attempt_record, hper]) store

/-- Closed instance of C2: the submission client raises for the only
candidate; the sweep still emits one system-error failure notification. -/
theorem C2_witness :
    raisingEnv.fetchFails = false ∧
    ((auto_reregister_active raisingEnv [activeReg] 0 2).2.length =
        (get_registrations_for_auto_reregister [activeReg] 0 2).length ∧
      (∀ r ∈ get_registrations_for_auto_reregister [activeReg] 0 2, ∀ m,
        raisingEnv.submit r = SubmitResult.raises m →
        notify_auto_reregister_failed raisingEnv r ("System error: " ++ m) ∈
          (auto_reregister_active raisingEnv [activeReg] 0 2).2) ∧
      (∀ r ∈ get_registrations_for_auto_reregister [activeReg] 0 2, ∀ m msg,
        raisingEnv.submit r = SubmitResult.returns true m →
        raisingEnv.persistFails r = some msg →
        notify_auto_reregister_failed raisingEnv r ("System error: " ++ msg) ∈
          (auto_reregister_active raisingEnv [activeReg] 0 2).2)) :=
  ⟨rfl, C2_per_candidate_isolation raisingEnv [activeReg] 0 2 rfl⟩

/-- Claim C4 (divergence): the claim's premise — the sweep receiving the
submission client's `(false, message)` pair — never occurs in the source:
`tasks.py` calls the async `submit_registration` without `await` (its other
call sites do await it), so the tuple-unpack of the coroutine raises
`TypeError` and the per-candidate handler sends the generic
`System error: cannot unpack non-iterable coroutine object` notification,
never one carrying the client's diagnostic.  Evaluated on the spec's
Scenario D candidate (the client would report `(false, "timeout")`): the
store is indeed left unchanged and the sweep completes, but the single
notification sent carries the generic system-error text, and no notification
carrying `timeout` appears. -/
theorem C4_unawaited_submit_call :
    auto_reregister_active unawaitedEnv [activeReg] 0 2 =
      ([activeReg],
        [Notification.autoFailed activeReg.discord_user_id activeReg.id
          ("System error: " ++ "cannot unpack non-iterable coroutine object")
          ("Please manually resubmit using /resubmit " ++ toString activeReg.id)
          true]) ∧
    ∀ n ∈ (auto_reregister_active unawaitedEnv [activeReg] 0 2).2,
      n ≠ Notification.autoFailed activeReg.discord_user_id activeReg.id
        "timeout"
        ("Please manually resubmit using /resubmit " ++ toString activeReg.id)
        true := by
  decide

/-- Claim C5: during an auto-renewal sweep the store is never mutated for a
registration id unless some candidate with that id had its submission-client
call report success in that same sweep: any id whose stored row differs after
the sweep belongs to a fetched candidate whose `submit` returned
`(true, _)`. -/
theorem C5_persist_only_after_success (env : SweepEnv) (store : Store)
    (now hours : Int) (j : Nat)
    (hchange : get_by_id (auto_reregister_active env store now hours).1 j ≠
      get_by_id store j) :
    ∃ r ∈ get_registrations_for_auto_reregister store now hours,
      r.id = j ∧ ∃ m, env.submit r = SubmitResult.returns true m := by
  cases hfetch : env.fetchFails with
  | true =>
      rw [auto_reregister_active, hfetch] at hchange
      exact absurd rfl hchange
  | false =>
      rw [auto_sweep_unfold env store now hours hfetch] at hchange
      exact auto_loop_store_change env now _ j store hchange

/-- Closed instance of C5: the sweep mutates the only row, and indeed its
candidate's submission call reported success. -/
theorem C5_witness :
    get_by_id (auto_reregister_active happyEnv [activeReg] 0 2).1 1 ≠
      get_by_id [activeReg] 1 ∧
    ∃ r ∈ get_registrations_for_auto_reregister [activeReg] 0 2,
      r.id = 1 ∧ ∃ m, happyEnv.submit r = SubmitResult.returns true m :=
  ⟨by decide, C5_persist_only_after_success happyEnv [activeReg] 0 2 1 (by decide)⟩

/-- Claim C6: in every expiration-notification sweep, a warning notification
is produced for exactly the fetched expiring-soon registrations with
`NOT (auto_reregister AND is_active)` (one warning each, in fetch order), and
the sweep leaves the store unchanged whatever each delivery returns. -/
theorem C6_notification_sweep (env : SweepEnv) (store : Store) (now hours : Int)
    (hfetch : env.fetchFails = false) :
    (check_expiring_registrations env store now hours).1 = store ∧
    (check_expiring_registrations env store now hours).2 =
      List.map (notify_expiring_soon env)
        (List.filter (fun r => !(r.auto_reregister && r.is_active))
          (get_expiring_soon store now hours)) := by
  have h1 : check_expiring_registrations env store now hours =
      (store, expiring_loop env (get_expiring_soon store now hours)) := by
    simp [check_expiring_registrations, hfetch]
  rw [h1]
  exact ⟨rfl, expiring_loop_eq env _⟩

/-- Closed instance of C6 on a one-row store holding an expiring registration
that is not under auto-renewal. -/
theorem C6_witness :
    happyEnv.fetchFails = false ∧
    ((check_expiring_registrations happyEnv [notifyReg] 0 2).1 = [notifyReg] ∧
      (check_expiring_registrations happyEnv [notifyReg] 0 2).2 =
        List.map (notify_expiring_soon happyEnv)
          (List.filter (fun r => !(r.auto_reregister && r.is_active))
            (get_expiring_soon [notifyReg] 0 2))) :=
  ⟨rfl, C6_notification_sweep happyEnv [notifyReg] 0 2 rfl⟩

/-- Claim C9: if fetching the candidate set at the start of a sweep raises,
that sweep returns with no candidate processed, no notification sent and no
registration mutated, for both the auto-renewal sweep and the
expiration-notification sweep. -/
theorem C9_fetch_failure_aborts_run (env : SweepEnv) (store : Store)
    (now hours : Int) (h : env.fetchFails = true) :
    auto_reregister_active env store now hours = (store, []) ∧
    check_expiring_registrations env store now hours = (store, []) := by
  constructor <;>
    simp [auto_reregister_active, check_expiring_registrations, h]

/-- Closed instance of C9 with a failing fetch over a non-empty store. -/
theorem C9_witness :
    fetchFailEnv.fetchFails = true ∧
    (auto_reregister_active fetchFailEnv [activeReg] 0 2 = ([activeReg], []) ∧
      check_expiring_registrations fetchFailEnv [activeReg] 0 2 = ([activeReg], [])) :=
  ⟨rfl, C9_fetch_failure_aborts_run fetchFailEnv [activeReg] 0 2 rfl⟩

/-- Claim C10: neither sweep ever sends the hard-expired notice (no
notification of the `notify_expired` kind appears in either sweep's output),
and every registration fetched by `get_expiring_soon` has an `expires_at`
strictly in the future, so an already-lapsed registration receives no
notification from the notification sweep. -/
theorem C10_no_hard_expired_notice (env : SweepEnv) (store : Store)
    (now hours : Int) :
    (∀ n ∈ (check_expiring_registrations env store now hours).2,
      n.isExpiredNotice = false) ∧
    (∀ n ∈ (auto_reregister_active env store now hours).2,
      n.isExpiredNotice = false) ∧
    (∀ r ∈ get_expiring_soon store now hours,
      ∃ e, r.expires_at = some e ∧ now < e) := by
  refine ⟨?_, ?_, ?_⟩
  · intro n hn
    cases hfetch : env.fetchFails with
    | true =>
        rw [check_expiring_registrations, hfetch] at hn
        cases hn
    | false =>
        have h1 : check_expiring_registrations env store now hours =
            (store, expiring_loop env (get_expiring_soon store now hours)) := by
          simp [check_expiring_registrations, hfetch]
        rw [h1] at hn
        exact expiring_loop_no_expired env _ n hn
  · intro n hn
    cases hfetch : env.fetchFails with
    | true =>
        rw [auto_reregister_active, hfetch] at hn
        cases hn
    | false =>
        rw [auto_sweep_unfold env store now hours hfetch] at hn
        exact auto_loop_no_expired env now _ store n hn
  · intro r hr
    unfold get_expiring_soon at hr
    have hmem := List.mem_filter.mp hr
    cases he : r.expires_at with
    | none => rw [he] at hmem; cases hmem.2
    | some e =>
        rw [he] at hmem
        have hand := hmem.2
        rw [Bool.and_eq_true] at hand
        exact ⟨e, rfl, of_decide_eq_true hand.1⟩
